import Mathlib

/-!
Shallow embedding of the `processCoffeeWithGemini` Firestore trigger
(src/functions/src/index.ts, second revision: the one using `userAge`,
`GEMINI_MODEL = "gemini-2.5-flash"` and `PROMPT_FINE_TUNE`).

External collaborators (Firestore, Cloud Storage, the Gemini client, the
JS `Date` parser and clocks) are modelled as an environment of oracles;
the handler itself is a pure function from the environment and the
triggering document to a trace of effect events plus ghost bookkeeping
(the list of temp files actually written to disk, the prompt composed).
-/

namespace Falista

/-- Calendar date as extracted from a JS `Date` via
`getFullYear`/`getMonth`/`getDate`.  Only differences and comparisons of
the month/day fields matter, so whether months are 0- or 1-based is
immaterial as long as it is consistent. -/
structure SimpleDate where
  year : Int
  month : Int
  day : Int
deriving DecidableEq, Repr

/-- The error payload written by the catch branch (index.ts:499-504). -/
structure ErrorPayload where
  error : String
  errorDetails : String
  processedAt : String
  source : String
deriving DecidableEq, Repr

/-- A value sitting in a document's `result` field.  A successful run
stores a plain string, a failed run stores an error object. -/
inductive ResultVal where
  | text (s : String)
  | payload (p : ErrorPayload)
deriving DecidableEq, Repr

/-- JS truthiness of `data.result`: `undefined`/`null` and the empty
string are falsy, every object is truthy (index.ts:318). -/
def resTruthy : Option ResultVal → Bool
  | some (.text s) => s ≠ ""
  | some (.payload _) => true
  | none => false

/-- JS truthiness of an optional string field (absent or empty = falsy). -/
def strTruthy : Option String → Bool
  | some s => s ≠ ""
  | none => false

/-- The triggering document's data (index.ts:335-339).  `result` is the
idempotency-guard field. -/
structure CoffeeData where
  userName : Option String
  userBirthday : Option String
  userRelationStatus : Option String
  userEmploymentStatus : Option String
  photoPaths : Option (List String)
  result : Option ResultVal

/-- Outcome the environment assigns to processing one photo reference:
the storage download may throw; otherwise the Gemini upload may throw;
otherwise the uploaded file may come back without `uri`/`mimeType`;
otherwise it yields a usable handle (index.ts:377-414). -/
inductive AssetOutcome where
  | downloadFail
  | uploadFail
  | uploadedNoUri
  | uploaded (uri mime : String)
deriving DecidableEq, Repr

/-- One part of the Gemini request content: a registered file reference
(`createPartFromUri`) or the trailing text prompt. -/
inductive Part where
  | fileRef (uri mime : String)
  | text (s : String)
deriving DecidableEq, Repr

def Part.isFileRef : Part → Bool
  | .fileRef _ _ => true
  | .text _ => false

/-- The metadata object stored under `ai` on success (index.ts:473-477). -/
structure AiMeta where
  promptText : String
  processedAt : String
  source : String
deriving DecidableEq, Repr

/-- A Firestore `update` call issued by the handler, with the status
string it carries (index.ts:471-479 and 498-506). -/
inductive UpdateDoc where
  | success (result : String) (ai : AiMeta) (status : String)
  | failure (result : ErrorPayload) (status : String)
deriving DecidableEq, Repr

def UpdateDoc.status : UpdateDoc → String
  | .success _ _ s => s
  | .failure _ s => s

/-- Observable external effects of one invocation, in order. -/
inductive Event where
  | download (path dest : String)
  | aiUpload (tempPath : String)
  | aiGenerate (model : String) (parts : List Part)
  | unlink (tempPath : String)
  | dbUpdate (u : UpdateDoc)
deriving DecidableEq, Repr

/-- The Firestore updates occurring in a trace, in order. -/
def dbUpdates (l : List Event) : List UpdateDoc :=
  l.filterMap fun e =>
    match e with
    | .dbUpdate u => some u
    | _ => none

/-- Number of `fs.unlinkSync` attempts in a trace. -/
def countUnlinks (l : List Event) : Nat :=
  (l.filter fun e =>
    match e with
    | .unlink _ => true
    | _ => false).length

/-- Environment of external oracles for one invocation. -/
structure Env where
  /-- `process.env.GEMINI_API_KEY` -/
  apiKey : Option String
  /-- behaviour of `new Date(string)`: `none` models an Invalid Date -/
  parseDate : String → Option SimpleDate
  /-- `new Date()` at the age computation -/
  today : SimpleDate
  /-- `os.tmpdir()` -/
  tmpdir : String
  /-- `Date.now()` at the i-th loop iteration -/
  nowMs : Nat → Nat
  /-- outcome of download/upload for the i-th photo reference -/
  asset : Nat → AssetOutcome
  /-- outcome of `ai.models.generateContent`: error message or text -/
  gen : Except String String
  /-- `new Date().toISOString()` at the terminal write -/
  nowIso : String

def GEMINI_MODEL : String := "gemini-2.5-flash"

def PROMPT_FINE_TUNE : List String := ["Dil Türkçe olsun."]

/-- `path.basename`: last `/`-separated component. -/
def basename (p : String) : String :=
  ((p.splitOn "/").getLast?).getD p

/-- `path.join(os.tmpdir(), "temp_" + timestamp + "_" + baseName)`
(index.ts:384-387). -/
def tempPathOf (e : Env) (i : Nat) (p : String) : String :=
  e.tmpdir ++ "/" ++ ("temp_" ++ toString (e.nowMs i) ++ "_" ++ basename p)

/-- Age computation from birthday (index.ts:345-356): year difference,
decremented when the birthday has not yet occurred this year. -/
def computeAge (today birth : SimpleDate) : Int :=
  let age := today.year - birth.year
  let monthDiff := today.month - birth.month
  if monthDiff < 0 ∨ (monthDiff = 0 ∧ today.day < birth.day) then age - 1
  else age

/-- `userAge` as the handler computes it (index.ts:342-363): `null` when
no (truthy) birthday is given; an Invalid Date yields an age that fails
the `> 0` guard exactly like an absent one, so it is modelled as absent. -/
def ageOf (e : Env) (d : CoffeeData) : Option Int :=
  match d.userBirthday with
  | some b => if b ≠ "" then (e.parseDate b).map (computeAge e.today) else none
  | none => none

/-- Prompt chunk for the name (index.ts:421-423): pushed iff `userName`
is truthy. -/
def nameChunk (n : Option String) : List String :=
  match n with
  | some s => if s ≠ "" then ["ismim " ++ s] else []
  | none => []

/-- Prompt chunk for the age (index.ts:425-427): pushed iff the age is
non-null and `> 0`. -/
def ageChunk (o : Option Int) : List String :=
  match o with
  | some a => if a > 0 then ["yasim " ++ toString a] else []
  | none => []

/-- Prompt chunk for the relationship status (index.ts:429-431). -/
def relationChunk (r : Option String) : List String :=
  match r with
  | some s => if s ≠ "" then ["medeni durumum " ++ s] else []
  | none => []

/-- Prompt chunk for the employment status (index.ts:433-435). -/
def employmentChunk (w : Option String) : List String :=
  match w with
  | some s => if s ≠ "" then ["iş durumum " ++ s] else []
  | none => []

/-- JS `Array.prototype.join(sep)`. -/
def joinSep (sep : String) : List String → String
  | [] => ""
  | [x] => x
  | x :: y :: xs => x ++ sep ++ joinSep sep (y :: xs)

/-- The prompt text exactly as composed by index.ts:418-445: chunks in
the fixed order name, age, relation, employment; joined with `", "`;
closing request appended (capitalised fallback when no chunk is
present); fine-tune directives appended. -/
def promptTextOf (n r w : Option String) (age : Option Int) : String :=
  let chunks := nameChunk n ++ ageChunk age ++ relationChunk r ++ employmentChunk w
  let base :=
    if chunks.length > 0 then joinSep ", " chunks ++ " kahve falımı yorumla."
    else "Kahve falımı yorumla."
  if PROMPT_FINE_TUNE.length > 0 then base ++ " " ++ joinSep " " PROMPT_FINE_TUNE
  else base

/-- The prompt the handler composes for a given document and environment
(the age depends on the environment's clock and date parser). -/
def promptOf (e : Env) (d : CoffeeData) : String :=
  promptTextOf d.userName d.userRelationStatus d.userEmploymentStatus (ageOf e d)

/-- Result of the photo-materialization loop (index.ts:376-415):
content parts collected, temp paths recorded for cleanup (`tempFiles`),
ghost list of files actually written to disk, and the trace of external
calls.  A path is *recorded* only when both the download and the Gemini
upload returned; it is *created* as soon as the download returned. -/
structure MatResult where
  parts : List Part
  temps : List String
  created : List String
  events : List Event
deriving DecidableEq, Repr

def emptyMat : MatResult := ⟨[], [], [], []⟩

/-- The per-photo loop (index.ts:377-414), iteration index threaded so
the environment can vary outcomes and timestamps per iteration. -/
def materializeLoop (e : Env) : List String → Nat → MatResult
  | [], _ => emptyMat
  | p :: rest, i =>
    let dest := tempPathOf e i p
    let step : MatResult :=
      match e.asset i with
      | .downloadFail => ⟨[], [], [], [.download p dest]⟩
      | .uploadFail => ⟨[], [], [dest], [.download p dest, .aiUpload dest]⟩
      | .uploadedNoUri => ⟨[], [dest], [dest], [.download p dest, .aiUpload dest]⟩
      | .uploaded uri mime =>
        ⟨[.fileRef uri mime], [dest], [dest], [.download p dest, .aiUpload dest]⟩
    let restR := materializeLoop e rest (i + 1)
    ⟨step.parts ++ restR.parts, step.temps ++ restR.temps,
     step.created ++ restR.created, step.events ++ restR.events⟩

/-- The materialization result for a document, including the
`photoPaths && photoPaths.length > 0` guard (index.ts:376). -/
def matOf (e : Env) (d : CoffeeData) : MatResult :=
  match d.photoPaths with
  | some ps => if ps.length > 0 then materializeLoop e ps 0 else emptyMat
  | none => emptyMat

/-- The error update issued by the catch branch (index.ts:498-506). -/
def errorUpdate (msg iso : String) : UpdateDoc :=
  .failure ⟨"Failed to process with Gemini AI", msg, iso, GEMINI_MODEL⟩ "error"

/-- Observable outcome of one invocation: the ordered event trace, the
ghost list of temp files actually written, and the prompt composed (if
execution reached the composition). -/
structure RunResult where
  events : List Event
  created : List String
  promptUsed : Option String
deriving DecidableEq, Repr

/-- The body of the `try` once the API key check has passed
(index.ts:334-506): materialize photos, compose the prompt, append it as
the last content part, call the model, sweep the recorded temp files
(in the success path after the call, in the catch branch on generation
failure), and issue the single terminal update. -/
def runMain (e : Env) (d : CoffeeData) : RunResult :=
  let m := matOf e d
  let p := promptOf e d
  let parts := m.parts ++ [Part.text p]
  match e.gen with
  | .ok t =>
    ⟨m.events ++ [.aiGenerate GEMINI_MODEL parts] ++ m.temps.map Event.unlink ++
       [.dbUpdate (.success t ⟨p, e.nowIso, GEMINI_MODEL⟩ "completed")],
     m.created, some p⟩
  | .error msg =>
    ⟨m.events ++ [.aiGenerate GEMINI_MODEL parts] ++ m.temps.map Event.unlink ++
       [.dbUpdate (errorUpdate msg e.nowIso)],
     m.created, some p⟩

/-- The whole handler (index.ts:308-508).  Missing event data and the
idempotency guard return with no effects; a falsy API key throws before
any external call and is converted by the catch branch (sweeping the
still-empty temp list) into the terminal error update. -/
def processCoffee (e : Env) (data : Option CoffeeData) : RunResult :=
  match data with
  | none => ⟨[], [], none⟩
  | some d =>
    if resTruthy d.result then ⟨[], [], none⟩
    else if !strTruthy e.apiKey then
      ⟨[.dbUpdate (errorUpdate "Gemini API key is not configured" e.nowIso)], [], none⟩
    else runMain e d

/-- A normalized attribute set in the sense of the spec: every field is
either a meaningful value or explicitly absent. -/
structure NormAttrs where
  name : Option String
  age : Option Int
  relation : Option String
  employment : Option String
deriving DecidableEq, Repr

/-- Normalization of an optional string field: empty or missing becomes
explicitly absent. -/
def normStr : Option String → Option String
  | some s => if s ≠ "" then some s else none
  | none => none

/-- Normalization of the age: only ages `> 0` are meaningful. -/
def normAge : Option Int → Option Int
  | some a => if a > 0 then some a else none
  | none => none

/-- The normalized attribute set for raw field values. -/
def normalizeAttrs (n r w : Option String) (age : Option Int) : NormAttrs :=
  ⟨normStr n, normAge age, normStr r, normStr w⟩

/-- The normalized attribute set a run works with. -/
def normOf (e : Env) (d : CoffeeData) : NormAttrs :=
  normalizeAttrs d.userName d.userRelationStatus d.userEmploymentStatus (ageOf e d)

/-- Modelled from the spec's description of the Prompt Composer: one
fixed-phrase clause per present attribute, in the fixed order name, age,
relationship status, employment status. -/
def clauseList (a : NormAttrs) : List String :=
  (a.name.map fun s => "ismim " ++ s).toList ++
  (a.age.map fun v => "yasim " ++ toString v).toList ++
  (a.relation.map fun s => "medeni durumum " ++ s).toList ++
  (a.employment.map fun s => "iş durumum " ++ s).toList

/-- Modelled from the spec's description of the Prompt Composer: join
the present clauses with a separator and append the closing
interpretation request; with no clause, the minimal fallback request;
then the fixed policy directives verbatim. -/
def promptSpec (a : NormAttrs) : String :=
  let core :=
    match clauseList a with
    | [] => "Kahve falımı yorumla."
    | cs => joinSep ", " cs ++ " kahve falımı yorumla."
  core ++ " " ++ "Dil Türkçe olsun."

/-- The content part one asset reference contributes, per the spec: a
registered handle when every sub-step succeeded, nothing otherwise. -/
def resolvedOne : AssetOutcome → Option Part
  | .uploaded uri mime => some (.fileRef uri mime)
  | _ => none

/-- The successfully materialized subset of the asset list, in order. -/
def resolvedParts (e : Env) : List String → Nat → List Part
  | [], _ => []
  | _ :: rest, i => (resolvedOne (e.asset i)).toList ++ resolvedParts e rest (i + 1)

/-- The successfully materialized subset for a document. -/
def resolvedPartsOf (e : Env) (d : CoffeeData) : List Part :=
  match d.photoPaths with
  | some ps => resolvedParts e ps 0
  | none => []

/-! Concrete fixtures used by the witness theorems and the failing-input
evaluation. -/

/-- A concrete date parser for witnesses: a small fixture table,
anything else behaving as an Invalid Date. -/
def parseFixture (s : String) : Option SimpleDate :=
  if s = "1990-05-15" then some ⟨1990, 5, 15⟩
  else if s = "2025-08-29" then some ⟨2025, 8, 29⟩
  else none

/-- A concrete environment: key present, one photo that downloads but
whose Gemini upload throws, generation succeeding. -/
def envUploadFail : Env :=
  { apiKey := some "k"
    parseDate := parseFixture
    today := ⟨2025, 8, 28⟩
    tmpdir := "/tmp"
    nowMs := fun _ => 1000
    asset := fun _ => .uploadFail
    gen := .ok "fal metni"
    nowIso := "2025-08-28T10:00:00.000Z" }

/-- A concrete environment: key present, first photo fails to download,
second photo fully succeeds, generation succeeding. -/
def envMixed : Env :=
  { apiKey := some "k"
    parseDate := parseFixture
    today := ⟨2025, 8, 28⟩
    tmpdir := "/tmp"
    nowMs := fun i => 1000 + i
    asset := fun i => if i = 0 then .downloadFail else .uploaded "files/u1" "image/jpeg"
    gen := .ok "fal metni"
    nowIso := "2025-08-28T10:00:00.000Z" }

/-- A concrete environment with a falsy API key. -/
def envNoKey : Env :=
  { apiKey := none
    parseDate := parseFixture
    today := ⟨2025, 8, 28⟩
    tmpdir := "/tmp"
    nowMs := fun _ => 1000
    asset := fun _ => .downloadFail
    gen := .error "never reached"
    nowIso := "2025-08-28T10:00:00.000Z" }

/-- A concrete environment where the Gemini generation call fails. -/
def envGenFail : Env :=
  { apiKey := some "k"
    parseDate := parseFixture
    today := ⟨2025, 8, 28⟩
    tmpdir := "/tmp"
    nowMs := fun _ => 1000
    asset := fun _ => .uploaded "files/u1" "image/jpeg"
    gen := .error "quota exceeded"
    nowIso := "2025-08-28T10:00:00.000Z" }

/-- A concrete document that already carries a result. -/
def dataDone : CoffeeData :=
  { userName := some "Ahmet"
    userBirthday := some "1990-05-15"
    userRelationStatus := some "evli"
    userEmploymentStatus := some "çalışıyor"
    photoPaths := some ["img.jpg"]
    result := some (.text "eski fal") }

/-- A concrete fresh document with one photo reference. -/
def dataFresh : CoffeeData :=
  { userName := some "Ahmet"
    userBirthday := some "1990-05-15"
    userRelationStatus := some "evli"
    userEmploymentStatus := some "çalışıyor"
    photoPaths := some ["img.jpg"]
    result := none }

/-- A concrete fresh document with two photo references. -/
def dataTwoPhotos : CoffeeData :=
  { userName := some "Ahmet"
    userBirthday := some "1990-05-15"
    userRelationStatus := none
    userEmploymentStatus := none
    photoPaths := some ["a.jpg", "b.jpg"]
    result := none }

/-- A concrete fresh document whose birthdate does not parse. -/
def dataBadBirthday : CoffeeData :=
  { userName := some "Ahmet"
    userBirthday := some "not-a-date"
    userRelationStatus := none
    userEmploymentStatus := none
    photoPaths := none
    result := none }

/-! Helper lemmas -/

lemma dbUpdates_append (l₁ l₂ : List Event) :
    dbUpdates (l₁ ++ l₂) = dbUpdates l₁ ++ dbUpdates l₂ := by
  simp [dbUpdates, List.filterMap_append]

lemma dbUpdates_unlinks (ts : List String) :
    dbUpdates (ts.map Event.unlink) = [] := by
  induction ts with
  | nil => rfl
  | cons t ts ih => exact ih

lemma mat_events_noDb (e : Env) (ps : List String) (i : Nat) :
    dbUpdates (materializeLoop e ps i).events = [] := by
  induction ps generalizing i with
  | nil => rfl
  | cons p rest ih =>
    simp only [materializeLoop, dbUpdates_append]
    rw [ih (i + 1)]
    cases e.asset i <;> simp [dbUpdates]

lemma matOf_events_noDb (e : Env) (d : CoffeeData) :
    dbUpdates (matOf e d).events = [] := by
  cases hpp : d.photoPaths with
  | none => simp [matOf, hpp, emptyMat, dbUpdates]
  | some ps =>
    by_cases h : ps.length > 0
    · simp only [matOf, hpp, if_pos h]
      exact mat_events_noDb e ps 0
    · simp only [matOf, hpp, if_neg h]
      rfl

lemma mat_parts_resolved (e : Env) (ps : List String) (i : Nat) :
    (materializeLoop e ps i).parts = resolvedParts e ps i := by
  induction ps generalizing i with
  | nil => rfl
  | cons p rest ih =>
    simp only [materializeLoop, resolvedParts]
    rw [ih (i + 1)]
    cases e.asset i <;> simp [resolvedOne]

lemma matOf_parts_resolved (e : Env) (d : CoffeeData) :
    (matOf e d).parts = resolvedPartsOf e d := by
  cases hpp : d.photoPaths with
  | none => simp [matOf, resolvedPartsOf, hpp, emptyMat]
  | some ps =>
    by_cases h : ps.length > 0
    · simp only [matOf, resolvedPartsOf, hpp, if_pos h]
      exact mat_parts_resolved e ps 0
    · have hnil : ps = [] := List.length_eq_zero.mp (Nat.eq_zero_of_not_pos h)
      simp [matOf, resolvedPartsOf, hpp, hnil, emptyMat, resolvedParts]

lemma mat_parts_fileRef (e : Env) (ps : List String) (i : Nat) :
    ∀ q ∈ (materializeLoop e ps i).parts, q.isFileRef = true := by
  induction ps generalizing i with
  | nil => intro q hq; cases hq
  | cons p rest ih =>
    intro q hq
    simp only [materializeLoop, List.mem_append] at hq
    rcases hq with hq | hq
    · cases h : e.asset i <;> rw [h] at hq <;> simp at hq
      case uploaded uri mime => subst hq; rfl
    · exact ih (i + 1) q hq

lemma matOf_parts_fileRef (e : Env) (d : CoffeeData) :
    ∀ q ∈ (matOf e d).parts, q.isFileRef = true := by
  cases hpp : d.photoPaths with
  | none => intro q hq; simp [matOf, hpp, emptyMat] at hq
  | some ps =>
    by_cases h : ps.length > 0
    · simp only [matOf, hpp, if_pos h]
      exact mat_parts_fileRef e ps 0
    · intro q hq; simp [matOf, hpp, h, emptyMat] at hq

lemma nameChunk_eq (n : Option String) :
    nameChunk n = (normStr n).toList.map fun s => "ismim " ++ s := by
  cases n with
  | none => rfl
  | some s => by_cases h : s = "" <;> simp [nameChunk, normStr, h]

lemma ageChunk_eq (o : Option Int) :
    ageChunk o = (normAge o).toList.map fun v => "yasim " ++ toString v := by
  cases o with
  | none => rfl
  | some a => by_cases h : a > 0 <;> simp [ageChunk, normAge, h]

lemma relationChunk_eq (r : Option String) :
    relationChunk r = (normStr r).toList.map fun s => "medeni durumum " ++ s := by
  cases r with
  | none => rfl
  | some s => by_cases h : s = "" <;> simp [relationChunk, normStr, h]

lemma employmentChunk_eq (w : Option String) :
    employmentChunk w = (normStr w).toList.map fun s => "iş durumum " ++ s := by
  cases w with
  | none => rfl
  | some s => by_cases h : s = "" <;> simp [employmentChunk, normStr, h]

lemma toList_map {α β : Type} (f : α → β) (o : Option α) :
    (o.map f).toList = o.toList.map f := by
  cases o <;> rfl

lemma clauseList_normalize (n r w : Option String) (age : Option Int) :
    clauseList (normalizeAttrs n r w age) =
      nameChunk n ++ ageChunk age ++ relationChunk r ++ employmentChunk w := by
  simp [clauseList, normalizeAttrs, nameChunk_eq, ageChunk_eq, relationChunk_eq,
    employmentChunk_eq, toList_map, List.append_assoc]

lemma prompt_eq_spec (n r w : Option String) (age : Option Int) :
    promptTextOf n r w age = promptSpec (normalizeAttrs n r w age) := by
  unfold promptTextOf promptSpec
  rw [clauseList_normalize]
  cases h : nameChunk n ++ ageChunk age ++ relationChunk r ++ employmentChunk w with
  | nil => simp [PROMPT_FINE_TUNE, joinSep]; rfl
  | cons c cs => simp [PROMPT_FINE_TUNE, joinSep]

lemma processCoffee_skip (e : Env) (d : CoffeeData)
    (hres : resTruthy d.result = true) :
    processCoffee e (some d) = ⟨[], [], none⟩ := by
  simp [processCoffee, hres]

lemma processCoffee_noKey (e : Env) (d : CoffeeData)
    (hres : resTruthy d.result = false) (hkey : strTruthy e.apiKey = false) :
    processCoffee e (some d) =
      ⟨[.dbUpdate (errorUpdate "Gemini API key is not configured" e.nowIso)], [], none⟩ := by
  simp [processCoffee, hres, hkey]

lemma processCoffee_eq_runMain (e : Env) (d : CoffeeData)
    (hres : resTruthy d.result = false) (hkey : strTruthy e.apiKey = true) :
    processCoffee e (some d) = runMain e d := by
  simp [processCoffee, hres, hkey]

lemma runMain_promptUsed (e : Env) (d : CoffeeData) :
    (runMain e d).promptUsed = some (promptOf e d) := by
  unfold runMain
  cases e.gen <;> rfl

lemma runMain_created (e : Env) (d : CoffeeData) :
    (runMain e d).created = (matOf e d).created := by
  unfold runMain
  cases e.gen <;> rfl

lemma runMain_dbUpdates_ok (e : Env) (d : CoffeeData) (t : String)
    (hg : e.gen = .ok t) :
    dbUpdates (runMain e d).events =
      [.success t ⟨promptOf e d, e.nowIso, GEMINI_MODEL⟩ "completed"] := by
  unfold runMain
  rw [hg]
  simp only [dbUpdates_append, matOf_events_noDb, dbUpdates_unlinks]
  rfl

lemma runMain_dbUpdates_err (e : Env) (d : CoffeeData) (msg : String)
    (hg : e.gen = .error msg) :
    dbUpdates (runMain e d).events = [errorUpdate msg e.nowIso] := by
  unfold runMain
  rw [hg]
  simp only [dbUpdates_append, matOf_events_noDb, dbUpdates_unlinks]
  rfl

lemma runMain_generate_mem (e : Env) (d : CoffeeData) :
    Event.aiGenerate GEMINI_MODEL ((matOf e d).parts ++ [Part.text (promptOf e d)]) ∈
      (runMain e d).events := by
  unfold runMain
  cases e.gen <;> simp

/-! Claim theorems -/

/-- C1: a triggering event whose record data already carries a (truthy,
i.e. non-empty) `result` makes the handler return with an empty effect
trace — no storage download, no AI upload, no generation, no Firestore
update — and without creating any temp file. -/
theorem C1_idempotency_guard (e : Env) (d : CoffeeData)
    (hres : resTruthy d.result = true) :
    (processCoffee e (some d)).events = [] ∧
    (processCoffee e (some d)).created = [] := by
  rw [processCoffee_skip e d hres]
  exact ⟨rfl, rfl⟩

theorem C1_idempotency_guard_witness :
    resTruthy dataDone.result = true ∧
    ((processCoffee envMixed (some dataDone)).events = [] ∧
     (processCoffee envMixed (some dataDone)).created = []) :=
  ⟨by decide, C1_idempotency_guard envMixed dataDone (by decide)⟩

/-- C2: with at least one asset reference failing to materialize, the
failure is contained to that reference: the run still terminates with
the single `completed` update, and the generation request carries
exactly the successfully materialized subset followed by the text
prompt (possibly text-only when every reference failed). -/
theorem C2_asset_failure_isolated (e : Env) (d : CoffeeData) (ps : List String) (t : String)
    (hres : resTruthy d.result = false) (hkey : strTruthy e.apiKey = true)
    (hps : d.photoPaths = some ps)
    (hfail : ∃ i, i < ps.length ∧ resolvedOne (e.asset i) = none)
    (hgen : e.gen = .ok t) :
    dbUpdates (processCoffee e (some d)).events =
      [.success t ⟨promptOf e d, e.nowIso, GEMINI_MODEL⟩ "completed"] ∧
    Event.aiGenerate GEMINI_MODEL (resolvedPartsOf e d ++ [Part.text (promptOf e d)]) ∈
      (processCoffee e (some d)).events := by
  rw [processCoffee_eq_runMain e d hres hkey]
  refine ⟨runMain_dbUpdates_ok e d t hgen, ?_⟩
  have hmem := runMain_generate_mem e d
  rwa [matOf_parts_resolved] at hmem

theorem C2_asset_failure_isolated_witness :
    (∃ i, i < (["a.jpg", "b.jpg"] : List String).length ∧
       resolvedOne (envMixed.asset i) = none) ∧
    (dbUpdates (processCoffee envMixed (some dataTwoPhotos)).events =
       [.success "fal metni"
          ⟨promptOf envMixed dataTwoPhotos, envMixed.nowIso, GEMINI_MODEL⟩ "completed"] ∧
     Event.aiGenerate GEMINI_MODEL
         (resolvedPartsOf envMixed dataTwoPhotos ++
           [Part.text (promptOf envMixed dataTwoPhotos)]) ∈
       (processCoffee envMixed (some dataTwoPhotos)).events) :=
  ⟨⟨0, by decide, rfl⟩,
   C2_asset_failure_isolated envMixed dataTwoPhotos ["a.jpg", "b.jpg"] "fal metni"
     rfl rfl rfl ⟨0, by decide, rfl⟩ rfl⟩

/-- C3: past the idempotency guard, the run issues exactly one Firestore
update, which is terminal: on success it carries the result text, the
`ai` metadata `{promptText, processedAt, source}` and status
`"completed"` together; on failure (generation error or missing key) it
carries the error payload and status `"error"` together; no update ever
carries status `"processing"`. -/
theorem C3_terminal_single_update (e : Env) (d : CoffeeData)
    (hres : resTruthy d.result = false) :
    (∀ t, strTruthy e.apiKey = true → e.gen = .ok t →
       dbUpdates (processCoffee e (some d)).events =
         [.success t ⟨promptOf e d, e.nowIso, GEMINI_MODEL⟩ "completed"]) ∧
    (∀ msg, strTruthy e.apiKey = true → e.gen = .error msg →
       dbUpdates (processCoffee e (some d)).events =
         [.failure ⟨"Failed to process with Gemini AI", msg, e.nowIso, GEMINI_MODEL⟩
            "error"]) ∧
    (strTruthy e.apiKey = false →
       dbUpdates (processCoffee e (some d)).events =
         [.failure ⟨"Failed to process with Gemini AI",
            "Gemini API key is not configured", e.nowIso, GEMINI_MODEL⟩ "error"]) ∧
    (∀ u ∈ dbUpdates (processCoffee e (some d)).events, u.status ≠ "processing") := by
  refine ⟨?_, ?_, ?_, ?_⟩
  · intro t hkey hg
    rw [processCoffee_eq_runMain e d hres hkey]
    exact runMain_dbUpdates_ok e d t hg
  · intro msg hkey hg
    rw [processCoffee_eq_runMain e d hres hkey]
    exact runMain_dbUpdates_err e d msg hg
  · intro hkey
    rw [processCoffee_noKey e d hres hkey]
    rfl
  · intro u hu
    cases hkey : strTruthy e.apiKey with
    | false =>
      rw [processCoffee_noKey e d hres hkey] at hu
      simp [dbUpdates] at hu
      subst hu
      exact (by decide : ("error" : String) ≠ "processing")
    | true =>
      rw [processCoffee_eq_runMain e d hres hkey] at hu
      cases hg : e.gen with
      | ok t =>
        rw [runMain_dbUpdates_ok e d t hg] at hu
        simp at hu
        subst hu
        exact (by decide : ("completed" : String) ≠ "processing")
      | error msg =>
        rw [runMain_dbUpdates_err e d msg hg] at hu
        simp at hu
        subst hu
        exact (by decide : ("error" : String) ≠ "processing")

theorem C3_terminal_single_update_witness :
    resTruthy dataFresh.result = false ∧
    dbUpdates (processCoffee envMixed (some dataFresh)).events =
      [.success "fal metni"
         ⟨promptOf envMixed dataFresh, envMixed.nowIso, GEMINI_MODEL⟩ "completed"] ∧
    dbUpdates (processCoffee envGenFail (some dataFresh)).events =
      [.failure ⟨"Failed to process with Gemini AI", "quota exceeded",
         envGenFail.nowIso, GEMINI_MODEL⟩ "error"] :=
  ⟨rfl,
   (C3_terminal_single_update envMixed dataFresh rfl).1 "fal metni" rfl rfl,
   (C3_terminal_single_update envGenFail dataFresh rfl).2.1 "quota exceeded" rfl rfl⟩

/-- C4: evaluation at the failing input for the cleanup-completeness
claim.  One photo reference whose storage download succeeds but whose
Gemini upload throws: exactly one transient local file is created, yet
zero deletion attempts are made (the path is appended to the cleanup
list only after `ai.files.upload` returns, so it is leaked), even
though the run otherwise terminates normally with a `completed`
update. -/
theorem C4_cleanup_misses_leaked_download :
    (processCoffee envUploadFail (some dataFresh)).created.length = 1 ∧
    countUnlinks (processCoffee envUploadFail (some dataFresh)).events = 0 ∧
    dbUpdates (processCoffee envUploadFail (some dataFresh)).events =
      [.success "fal metni"
         ⟨promptOf envUploadFail dataFresh, envUploadFail.nowIso, GEMINI_MODEL⟩
         "completed"] := by
  refine ⟨rfl, rfl, rfl⟩

/-- C5: the computed age is the year difference, decremented by one
exactly when (month, day) of "now" lexicographically precedes (month,
day) of the birthdate; concretely 35 for birthdate 1990-05-15 on
2025-08-28, and -1 for birthdate 2025-08-29 on 2025-08-28; any age ≤ 0
is excluded from the prompt (the composed text is the one with the age
absent). -/
theorem C5_age_derivation :
    (∀ today birth : SimpleDate,
       computeAge today birth =
         today.year - birth.year -
           (if today.month < birth.month ∨
               (today.month = birth.month ∧ today.day < birth.day)
            then 1 else 0)) ∧
    computeAge ⟨2025, 8, 28⟩ ⟨1990, 5, 15⟩ = 35 ∧
    computeAge ⟨2025, 8, 28⟩ ⟨2025, 8, 29⟩ = -1 ∧
    (∀ (n r w : Option String) (a : Int), a ≤ 0 →
       promptTextOf n r w (some a) = promptTextOf n r w none) := by
  refine ⟨?_, by decide, by decide, ?_⟩
  · intro today birth
    simp only [computeAge]
    split_ifs with h1 h2 h3 <;> omega
  · intro n r w a ha
    have h0 : ageChunk (some a) = ageChunk none := by
      have : ¬ a > 0 := by omega
      simp [ageChunk, this]
    simp [promptTextOf, h0]

theorem C5_age_derivation_witness :
    (-1 : Int) ≤ 0 ∧
    promptTextOf (some "Ahmet") none none (some (-1)) =
      promptTextOf (some "Ahmet") none none none :=
  ⟨by decide, C5_age_derivation.2.2.2 (some "Ahmet") none none (-1) (by decide)⟩

/-- C6: a birthdate string that fails to parse leaves the age absent —
the composed prompt is exactly the one built with no age — and does not
abort processing: the run still issues its single terminal update with
status `"completed"` or `"error"`. -/
theorem C6_bad_birthdate_recovered (e : Env) (d : CoffeeData) (b : String)
    (hres : resTruthy d.result = false) (hkey : strTruthy e.apiKey = true)
    (hb : d.userBirthday = some b) (hparse : e.parseDate b = none) :
    (processCoffee e (some d)).promptUsed =
      some (promptTextOf d.userName d.userRelationStatus d.userEmploymentStatus none) ∧
    ∃ u, dbUpdates (processCoffee e (some d)).events = [u] ∧
      (u.status = "completed" ∨ u.status = "error") := by
  have hage : ageOf e d = none := by
    simp [ageOf, hb, hparse]
  rw [processCoffee_eq_runMain e d hres hkey]
  constructor
  · rw [runMain_promptUsed]
    rw [promptOf, hage]
  · cases hg : e.gen with
    | ok t => exact ⟨_, runMain_dbUpdates_ok e d t hg, Or.inl rfl⟩
    | error msg => exact ⟨_, runMain_dbUpdates_err e d msg hg, Or.inr rfl⟩

theorem C6_bad_birthdate_recovered_witness :
    parseFixture "not-a-date" = none ∧
    ((processCoffee envUploadFail (some dataBadBirthday)).promptUsed =
       some (promptTextOf dataBadBirthday.userName dataBadBirthday.userRelationStatus
         dataBadBirthday.userEmploymentStatus none) ∧
     ∃ u, dbUpdates (processCoffee envUploadFail (some dataBadBirthday)).events = [u] ∧
       (u.status = "completed" ∨ u.status = "error")) :=
  ⟨by decide,
   C6_bad_birthdate_recovered envUploadFail dataBadBirthday "not-a-date" rfl rfl rfl
     (by decide)⟩

/-- C7: the composed prompt equals the spec-side composition: one
fixed-phrase clause per present normalized attribute in the fixed order
name, age, relationship status, employment status, joined with the
separator, then the closing interpretation request (the minimal
fallback request when no attribute is present), then the fixed policy
directives verbatim. -/
theorem C7_prompt_structure (n r w : Option String) (age : Option Int) :
    promptTextOf n r w age = promptSpec (normalizeAttrs n r w age) :=
  prompt_eq_spec n r w age

/-- C8: prompt composition is deterministic: two runs (over arbitrary
environments — different clocks, asset outcomes, generation results)
whose normalized attribute sets coincide compose byte-identical prompt
texts. -/
theorem C8_prompt_deterministic (e₁ e₂ : Env) (d₁ d₂ : CoffeeData)
    (h₁ : resTruthy d₁.result = false) (hk₁ : strTruthy e₁.apiKey = true)
    (h₂ : resTruthy d₂.result = false) (hk₂ : strTruthy e₂.apiKey = true)
    (hnorm : normOf e₁ d₁ = normOf e₂ d₂) :
    (processCoffee e₁ (some d₁)).promptUsed = (processCoffee e₂ (some d₂)).promptUsed := by
  rw [processCoffee_eq_runMain e₁ d₁ h₁ hk₁, processCoffee_eq_runMain e₂ d₂ h₂ hk₂,
    runMain_promptUsed, runMain_promptUsed]
  have p₁ : promptOf e₁ d₁ = promptSpec (normOf e₁ d₁) :=
    prompt_eq_spec d₁.userName d₁.userRelationStatus d₁.userEmploymentStatus (ageOf e₁ d₁)
  have p₂ : promptOf e₂ d₂ = promptSpec (normOf e₂ d₂) :=
    prompt_eq_spec d₂.userName d₂.userRelationStatus d₂.userEmploymentStatus (ageOf e₂ d₂)
  rw [p₁, p₂, hnorm]

theorem C8_prompt_deterministic_witness :
    normOf envUploadFail dataFresh = normOf envGenFail dataFresh ∧
    (processCoffee envUploadFail (some dataFresh)).promptUsed =
      (processCoffee envGenFail (some dataFresh)).promptUsed :=
  ⟨by decide,
   C8_prompt_deterministic envUploadFail envGenFail dataFresh dataFresh
     rfl rfl rfl rfl (by decide)⟩

/-- C9: with a falsy API key, a run that passes the idempotency check
performs no storage download, no AI upload and no generation — its
whole effect trace is the single Firestore update setting status
`"error"` with the fixed category string and the underlying message as
`errorDetails`. -/
theorem C9_missing_key_fails_fast (e : Env) (d : CoffeeData)
    (hres : resTruthy d.result = false) (hkey : strTruthy e.apiKey = false) :
    (processCoffee e (some d)).events =
      [.dbUpdate (.failure ⟨"Failed to process with Gemini AI",
         "Gemini API key is not configured", e.nowIso, GEMINI_MODEL⟩ "error")] := by
  rw [processCoffee_noKey e d hres hkey]
  rfl

theorem C9_missing_key_fails_fast_witness :
    strTruthy envNoKey.apiKey = false ∧
    (processCoffee envNoKey (some dataFresh)).events =
      [.dbUpdate (.failure ⟨"Failed to process with Gemini AI",
         "Gemini API key is not configured", envNoKey.nowIso, GEMINI_MODEL⟩ "error")] :=
  ⟨rfl, C9_missing_key_fails_fast envNoKey dataFresh rfl rfl⟩

/-- C10: on a successful run, the generation request's content parts end
with the text prompt — every preceding part is a registered file
reference — and the `promptText` stored in the `ai` metadata of the
`completed` update is byte-identical to that last text part. -/
theorem C10_prompt_is_last_part (e : Env) (d : CoffeeData) (t : String)
    (hres : resTruthy d.result = false) (hkey : strTruthy e.apiKey = true)
    (hgen : e.gen = .ok t) :
    ∃ parts : List Part,
      Event.aiGenerate GEMINI_MODEL parts ∈ (processCoffee e (some d)).events ∧
      dbUpdates (processCoffee e (some d)).events =
        [.success t ⟨promptOf e d, e.nowIso, GEMINI_MODEL⟩ "completed"] ∧
      parts.getLast? = some (Part.text (promptOf e d)) ∧
      ∀ q ∈ parts.dropLast, q.isFileRef = true := by
  rw [processCoffee_eq_runMain e d hres hkey]
  refine ⟨(matOf e d).parts ++ [Part.text (promptOf e d)],
    runMain_generate_mem e d, runMain_dbUpdates_ok e d t hgen, ?_, ?_⟩
  · exact List.getLast?_concat _
  · rw [List.dropLast_concat]
    exact matOf_parts_fileRef e d

theorem C10_prompt_is_last_part_witness :
    ∃ parts : List Part,
      Event.aiGenerate GEMINI_MODEL parts ∈
        (processCoffee envMixed (some dataTwoPhotos)).events ∧
      dbUpdates (processCoffee envMixed (some dataTwoPhotos)).events =
        [.success "fal metni"
           ⟨promptOf envMixed dataTwoPhotos, envMixed.nowIso, GEMINI_MODEL⟩ "completed"] ∧
      parts.getLast? = some (Part.text (promptOf envMixed dataTwoPhotos)) ∧
      ∀ q ∈ parts.dropLast, q.isFileRef = true :=
  C10_prompt_is_last_part envMixed dataTwoPhotos "fal metni" rfl rfl rfl

end Falista
